import Mathlib

/-!
Verification development for `generate_today.py` (salah_time).

The program computes, for the fixed Frankfurt location, a daily table of
solar events, builds a list of named half-open day windows ("blocks"),
resolves the current block for a given instant, derives a fasting/eating
state, a progress percentage, and a secondary-calendar (Hijri) label.

Modelling choices:
 *  Instants are wall-clock minutes from the current date's local midnight,
    as exact rationals (`ℚ`) for the schedule layer; event times produced
    by the solar layer enter the schedule as the `ScheduleInputs` record.
    The next day's sunrise is expressed on the same axis (midnight + 1440).
 *  The solar-trigonometry layer is embedded over `ℝ` (`Real.sin` etc.);
    the time zone (Python `ZoneInfo`) is an external collaborator and is
    modelled as a function from (date ordinal, wall minute) to the zone's
    UTC offset in minutes -- the code queries it at wall minute 720 (noon).
 *  Python `int()` on a non-negative float is `Int.floor`; Python float
    `% 1440.0` is `fmod1440`; dates are proleptic-Gregorian ordinals (`ℤ`)
    as in Python's `date.toordinal` (2026-02-17 has ordinal 739664).
 *  The f-string display fields (`line1`/`line2`, `%H:%M` formatting) are
    presentation only and are not modelled; a block keeps its name and its
    two boundaries.
-/

namespace SalahTime

/-- Reverse-engineered constant: Sihori End = Sunrise - 75 minutes. -/
def SIHORI_BEFORE_SUNRISE_MIN : ℚ := 75

/-- Reverse-engineered constant: Asr End = Maghrib - 105 minutes. -/
def ASR_BEFORE_MAGHRIB_MIN : ℚ := 105

/-- Reverse-engineered constant: the Maghrib window lasts 15 minutes. -/
def MAGHRIB_WINDOW_MIN : ℚ := 15

/-- Reverse-engineered constant: Nisf End = Nisf Start + 66 minutes. -/
def NISF_DURATION_MIN : ℚ := 66

/-- A named half-open window `[start, stop)` of the day schedule.  In the
source each block is a tuple `(name, start, end, line1, line2)`; the two
display strings are presentation and are not modelled, and the reserved
word `end` is rendered as `stop`. -/
structure Block where
  name : String
  start : ℚ
  stop : ℚ
  deriving DecidableEq

/-- The event times feeding `compute_day_schedule`, in wall-clock minutes
from today's local midnight: today's sunrise, zawal and maghrib from
`compute_solar_times(today)`, tomorrow's sunrise (on the same axis, so
about 1440 + its minute of day), and yesterday's maghrib (negative offset)
from `compute_solar_times(today - 1 day)`, used by the night-progress
branch. -/
structure ScheduleInputs where
  sunrise : ℚ
  zawal : ℚ
  maghrib : ℚ
  sunrise_next : ℚ
  maghrib_prev : ℚ
  deriving DecidableEq

/-- Line 116: `sihori_end = sunrise - timedelta(minutes=75)`. -/
def sihori_end (i : ScheduleInputs) : ℚ := i.sunrise - SIHORI_BEFORE_SUNRISE_MIN

/-- Line 117: `asr_end = maghrib - timedelta(minutes=105)`. -/
def asr_end (i : ScheduleInputs) : ℚ := i.maghrib - ASR_BEFORE_MAGHRIB_MIN

/-- Line 118: `zuhr_end = zawal + (asr_end - zawal) / 2` (midpoint). -/
def zuhr_end (i : ScheduleInputs) : ℚ := i.zawal + (asr_end i - i.zawal) / 2

/-- Line 120: `maghrib_end = maghrib + timedelta(minutes=15)`. -/
def maghrib_end (i : ScheduleInputs) : ℚ := i.maghrib + MAGHRIB_WINDOW_MIN

/-- Line 122: `nisf_start = maghrib + (sunrise_next - maghrib) / 2`. -/
def nisf_start (i : ScheduleInputs) : ℚ := i.maghrib + (i.sunrise_next - i.maghrib) / 2

/-- Line 123: `nisf_end = nisf_start + timedelta(minutes=66)`. -/
def nisf_end (i : ScheduleInputs) : ℚ := nisf_start i + NISF_DURATION_MIN

/-- Line 126: `sihori_end_next = sunrise_next - timedelta(minutes=75)`. -/
def sihori_end_next (i : ScheduleInputs) : ℚ := i.sunrise_next - SIHORI_BEFORE_SUNRISE_MIN

/-- Lines 131-141: the block list, in source order, with local midnight as
minute 0. -/
def blocks (i : ScheduleInputs) : List Block :=
  [ ⟨"Pre-Sehori", 0, sihori_end i⟩,
    ⟨"Fajr", sihori_end i, i.sunrise⟩,
    ⟨"Midday", i.sunrise, i.zawal⟩,
    ⟨"Zohr", i.zawal, zuhr_end i⟩,
    ⟨"Asr", zuhr_end i, asr_end i⟩,
    ⟨"Late Asr", asr_end i, i.maghrib⟩,
    ⟨"Maghrib", i.maghrib, maghrib_end i⟩,
    ⟨"Isha", maghrib_end i, nisf_start i⟩,
    ⟨"Late Night", nisf_end i, sihori_end_next i⟩ ]

/-- Line 146: the membership test `b[1] <= now < b[2]` of the scan loop. -/
def hits (b : Block) (now : ℚ) : Bool :=
  decide (b.start ≤ now) && decide (now < b.stop)

/-- Lines 144-148 as a recursion: scan the list and return the first block
that contains `now`, or the fallback (the code initialises `current =
blocks[-1]` before the loop). -/
def findBlock (now : ℚ) : List Block → Block → Block
  | [], fb => fb
  | b :: rest, fb => if hits b now then b else findBlock now rest fb

/-- The fallback block `blocks[-1]`; the dummy default is never used since
the block list is a literal with nine entries. -/
def lastBlock (i : ScheduleInputs) : Block := (blocks i).getLastD ⟨"", 0, 0⟩

/-- Lines 143-148: the block the state resolver selects for `now`. -/
def currentBlock (i : ScheduleInputs) (now : ℚ) : Block :=
  findBlock now (blocks i) (lastBlock i)

/-- Line 153: `fasting = (sihori_end <= now < maghrib)`. -/
def fasting (i : ScheduleInputs) (now : ℚ) : Bool :=
  decide (sihori_end i ≤ now) && decide (now < i.maghrib)

/-- Line 154: `eat_state = "No Eat" if fasting else "Eat"`. -/
def eat_state (i : ScheduleInputs) (now : ℚ) : String :=
  if fasting i now then "No Eat" else "Eat"

/-- Lines 61-62: `clamp_pct(x) = int(max(0, min(100, x)))`; on the clamped
non-negative value Python `int` truncation is the floor. -/
def clamp_pct (x : ℚ) : ℤ := ⌊max 0 (min 100 x)⌋

/-- Line 179: `clamp_pct((elapsed / total) * 100) if total > 0 else 0`. -/
def guarded_pct (total elapsed : ℚ) : ℤ :=
  if 0 < total then clamp_pct (elapsed / total * 100) else 0

/-- Lines 159-179: the progress value.  During fasting the span is sihori
end to maghrib; otherwise, before maghrib the span is the previous day's
maghrib to today's sihori end, and after maghrib it is maghrib to the next
day's sihori end; the division is guarded by `total > 0`. -/
def progress_percent (i : ScheduleInputs) (now : ℚ) : ℤ :=
  if fasting i now then
    guarded_pct (i.maghrib - sihori_end i) (now - sihori_end i)
  else if now < i.maghrib then
    guarded_pct (sihori_end i - i.maghrib_prev) (now - i.maghrib_prev)
  else
    guarded_pct (sihori_end_next i - i.maghrib) (now - i.maghrib)

/-- Modelled from the spec, for comparison with `progress_percent` (claim
C2): progress over the boundaries of the active (containing) window,
`clamp(100 * (now - start) / (end - start), 0, 100)`, and 0 when the
window is degenerate (`end == start`). -/
def progressSpec (i : ScheduleInputs) (now : ℚ) : ℤ :=
  let b := currentBlock i now
  if b.stop = b.start then 0 else clamp_pct (100 * (now - b.start) / (b.stop - b.start))

/-- The progress span the code actually uses for a given `now` (start and
end of the fasting span or of the night span); used to characterise
`progress_percent` in the amended claim C2. -/
def progressSpan (i : ScheduleInputs) (now : ℚ) : ℚ × ℚ :=
  if fasting i now then (sihori_end i, i.maghrib)
  else if now < i.maghrib then (i.maghrib_prev, sihori_end i)
  else (i.maghrib, sihori_end_next i)

/-- Sanity orderings of the event times that hold for any real day at the
fixed location (events in chronological order, with the night spans
non-degenerate); hypotheses of the monotonicity theorem. -/
def WellFormed (i : ScheduleInputs) : Prop :=
  i.maghrib_prev < sihori_end i ∧ i.sunrise ≤ i.zawal ∧ i.zawal ≤ asr_end i ∧
    sihori_end i < i.maghrib ∧ i.maghrib ≤ i.sunrise_next ∧ i.maghrib < sihori_end_next i

/-- Concrete sample day used by witnesses and counterexamples: sunrise
08:00 (480), zawal 12:15 (735), maghrib 17:00 (1020), next-day sunrise
08:00 (1920 on today's axis), previous-day maghrib 17:00 (-420). -/
def sampleInputs : ScheduleInputs := ⟨480, 735, 1020, 1920, -420⟩

/-- Proleptic-Gregorian ordinal of `RAMADAN_1_GREGORIAN = 2026-02-17`
(Python `date(2026, 2, 17).toordinal()`). -/
def RAMADAN_1_ORDINAL : ℤ := 739664

/-- Line 22: the fixed anchor year of the Hijri label. -/
def RAMADAN_1_HIJRI_YEAR : ℤ := 1447

/-- Lines 23-27: the twelve Hijri month names. -/
def HIJRI_MONTHS : List String :=
  [ "Muharram", "Safar", "Rabi I", "Rabi II",
    "Jumada I", "Jumada II", "Rajab", "Sha\x27ban",
    "Ramadan", "Shawwal", "Dhul Qa\x27dah", "Dhul Hijjah" ]

/-- Lines 64-73: the anchored Hijri label `(day, month, year)` for a
Gregorian date given by its ordinal. -/
def gregorian_to_hijri_ramadan_anchor (dateOrd : ℤ) : ℤ × ℕ × ℤ :=
  let delta := dateOrd - RAMADAN_1_ORDINAL
  let day := 1 + delta
  if day ≤ 0 then (30 + day, 8, RAMADAN_1_HIJRI_YEAR)
  else (day, 9, RAMADAN_1_HIJRI_YEAR)

/-- Line 8: the fixed latitude, degrees. -/
noncomputable def LAT : ℝ := 50.1109

/-- Line 9: the fixed longitude, degrees. -/
noncomputable def LON : ℝ := 8.6821

/-- Line 30: degrees to radians. -/
noncomputable def deg2rad (x : ℝ) : ℝ := x * Real.pi / 180

/-- Python `math.degrees`: radians to degrees. -/
noncomputable def degrees (x : ℝ) : ℝ := x * 180 / Real.pi

/-- Lines 33-42: the NOAA declination series, radians. -/
noncomputable def solar_declination (gamma : ℝ) : ℝ :=
  0.006918
    - 0.399912 * Real.cos gamma
    + 0.070257 * Real.sin gamma
    - 0.006758 * Real.cos (2 * gamma)
    + 0.000907 * Real.sin (2 * gamma)
    - 0.002697 * Real.cos (3 * gamma)
    + 0.00148 * Real.sin (3 * gamma)

/-- Lines 44-51: the NOAA equation-of-time series, minutes. -/
noncomputable def equation_of_time (gamma : ℝ) : ℝ :=
  229.18 * (0.000075
    + 0.001868 * Real.cos gamma
    - 0.032077 * Real.sin gamma
    - 0.014615 * Real.cos (2 * gamma)
    - 0.040849 * Real.sin (2 * gamma))

/-- Lines 55-57: the raw cosine ratio of `hour_angle` before clamping. -/
noncomputable def cosH (lat_rad decl_rad alt_deg : ℝ) : ℝ :=
  (Real.sin (deg2rad alt_deg) - Real.sin lat_rad * Real.sin decl_rad) /
    (Real.cos lat_rad * Real.cos decl_rad)

/-- Lines 53-59: the hour angle, degrees; the cosine ratio is clamped to
`[-1, 1]` before `acos`. -/
noncomputable def hour_angle (lat_rad decl_rad alt_deg : ℝ) : ℝ :=
  degrees (Real.arccos (max (-1) (min 1 (cosH lat_rad decl_rad alt_deg))))

/-- Line 83: the fractional-year angle of a day-of-year. -/
noncomputable def gammaOf (doy : ℕ) : ℝ := 2 * Real.pi / 365 * ((doy : ℝ) - 1)

/-- Python float `x % 1440.0` (the modulus is positive). -/
noncomputable def fmod1440 (x : ℝ) : ℝ := x - 1440 * (⌊x / 1440⌋ : ℤ)

/-- Line 91: solar noon in minutes from local midnight; `tz` models the
`ZoneInfo` collaborator as the zone's UTC-offset function of (date
ordinal, local wall minute), which the code queries at wall minute 720
(`noon.utcoffset()`). -/
noncomputable def solar_noon_min (tz : ℤ → ℝ → ℝ) (dateOrd : ℤ) (doy : ℕ) : ℝ :=
  720 - 4 * LON - equation_of_time (gammaOf doy) + tz dateOrd 720

/-- Line 94: the standard sunrise/sunset altitude. -/
noncomputable def ALT : ℝ := -0.833

/-- Line 95: the sunrise/sunset hour angle of a day-of-year. -/
noncomputable def H0 (doy : ℕ) : ℝ :=
  hour_angle (deg2rad LAT) (solar_declination (gammaOf doy)) ALT

/-- Line 97: `sunrise_min = solar_noon_min - H0 * 4`. -/
noncomputable def sunrise_min (tz : ℤ → ℝ → ℝ) (dateOrd : ℤ) (doy : ℕ) : ℝ :=
  solar_noon_min tz dateOrd doy - H0 doy * 4

/-- Line 98: `sunset_min = solar_noon_min + H0 * 4`. -/
noncomputable def sunset_min (tz : ℤ → ℝ → ℝ) (dateOrd : ℤ) (doy : ℕ) : ℝ :=
  solar_noon_min tz dateOrd doy + H0 doy * 4

/-- Lines 100-104: `to_dt` reduces the minute offset modulo 1440; wall
minute of zawal. -/
noncomputable def zawalWall (tz : ℤ → ℝ → ℝ) (dateOrd : ℤ) (doy : ℕ) : ℝ :=
  fmod1440 (solar_noon_min tz dateOrd doy)

/-- Lines 100-105: wall minute of maghrib. -/
noncomputable def maghribWall (tz : ℤ → ℝ → ℝ) (dateOrd : ℤ) (doy : ℕ) : ℝ :=
  fmod1440 (sunset_min tz dateOrd doy)

/-- Line 117 on the solar layer: `asr_end = maghrib - 105` minutes. -/
noncomputable def asr_end_min (tz : ℤ → ℝ → ℝ) (dateOrd : ℤ) (doy : ℕ) : ℝ :=
  maghribWall tz dateOrd doy - 105

/-- Line 118 on the solar layer: `zuhr_end = zawal + (asr_end - zawal)/2`. -/
noncomputable def zuhr_end_min (tz : ℤ → ℝ → ℝ) (dateOrd : ℤ) (doy : ℕ) : ℝ :=
  zawalWall tz dateOrd doy + (asr_end_min tz dateOrd doy - zawalWall tz dateOrd doy) / 2

/-- Modelled from the spec, for comparison in claim C8 (the code computes
no such quantity): the "noon shadow length" `tan(|latitude -
declination|)`. -/
noncomputable def noonShadowLen (lat_rad decl_rad : ℝ) : ℝ :=
  Real.tan |lat_rad - decl_rad|

/-- Modelled from the spec, for comparison in claim C8: the target
altitude `atan(1 / (shadowFactor + noonShadowLength))` in degrees. -/
noncomputable def shadowAltDeg (f lat_rad decl_rad : ℝ) : ℝ :=
  degrees (Real.arctan (1 / (f + noonShadowLen lat_rad decl_rad)))

/-- Modelled from the spec, for comparison in claim C8: the afternoon
marker time obtained by feeding the shadow-based target altitude through
`hour_angle` and taking the evening event `solarNoon + angle * 4`. -/
noncomputable def shadowMarkerMin (tz : ℤ → ℝ → ℝ) (dateOrd : ℤ) (doy : ℕ) (f : ℝ) : ℝ :=
  solar_noon_min tz dateOrd doy +
    4 * hour_angle (deg2rad LAT) (solar_declination (gammaOf doy))
      (shadowAltDeg f (deg2rad LAT) (solar_declination (gammaOf doy)))

/-- The Europe/Berlin UTC offset on a winter date (CET, +60 minutes),
modelled as a constant offset function; the concrete date used below,
2026-01-01 (ordinal 739617), lies outside daylight-saving time. -/
noncomputable def berlinWinterTZ : ℤ → ℝ → ℝ := fun _ _ => 60

theorem findBlock_eq (now : ℚ) (l : List Block) (fb : Block) :
    findBlock now l fb = (l.find? (fun b => hits b now)).getD fb := by
  induction l with
  | nil => rfl
  | cons b rest ih =>
    by_cases h : hits b now
    · simp [findBlock, h, List.find?_cons]
    · simp [findBlock, h, List.find?_cons, ih]

theorem progress_eq_fasting {i : ScheduleInputs} {t : ℚ}
    (h1 : sihori_end i ≤ t) (h2 : t < i.maghrib) :
    progress_percent i t = guarded_pct (i.maghrib - sihori_end i) (t - sihori_end i) := by
  simp [progress_percent, fasting, h1, h2]

theorem progress_eq_before {i : ScheduleInputs} {t : ℚ}
    (h1 : t < sihori_end i) (h2 : t < i.maghrib) :
    progress_percent i t = guarded_pct (sihori_end i - i.maghrib_prev) (t - i.maghrib_prev) := by
  simp [progress_percent, fasting, h2, not_le.mpr h1]

theorem progress_eq_night {i : ScheduleInputs} {t : ℚ} (h1 : i.maghrib ≤ t) :
    progress_percent i t = guarded_pct (sihori_end_next i - i.maghrib) (t - i.maghrib) := by
  have hx : ¬ t < i.maghrib := not_lt.mpr h1
  have hf : fasting i t = false := by simp [fasting, hx]
  simp [progress_percent, hf, hx]

theorem guarded_pct_nonneg (t e : ℚ) : 0 ≤ guarded_pct t e := by
  unfold guarded_pct clamp_pct
  split_ifs
  · exact Int.le_floor.mpr (by push_cast; exact le_max_left 0 _)
  · exact le_refl 0

theorem guarded_pct_le_100 (t e : ℚ) : guarded_pct t e ≤ 100 := by
  unfold guarded_pct clamp_pct
  split_ifs
  · have h : max 0 (min 100 (e / t * 100)) ≤ (100 : ℚ) :=
      max_le (by norm_num) (min_le_left _ _)
    calc ⌊max 0 (min 100 (e / t * 100))⌋ ≤ ⌊(100:ℚ)⌋ := Int.floor_le_floor h
      _ = 100 := by norm_num
  · norm_num

theorem clamp_pct_mono {x y : ℚ} (h : x ≤ y) : clamp_pct x ≤ clamp_pct y :=
  Int.floor_le_floor (max_le_max le_rfl (min_le_min le_rfl h))

theorem guarded_pct_mono {t e1 e2 : ℚ} (h : e1 ≤ e2) :
    guarded_pct t e1 ≤ guarded_pct t e2 := by
  unfold guarded_pct
  split_ifs with ht
  · exact clamp_pct_mono
      (mul_le_mul_of_nonneg_right ((div_le_div_iff_of_pos_right ht).mpr h) (by norm_num))
  · exact le_refl 0

/-- Claim C1 (code bug evidence): the block list is NOT contiguous.  On the
sample day the "Isha" window (index 7) ends at `nisf_start` (1470) while the
next window "Late Night" (index 8) starts at `nisf_end = nisf_start + 66`
(1536); the instant 1500 inside the covered span belongs to no window, even
though the first window does start at local midnight (0). -/
theorem claim_C1_blocks_gap :
    (blocks sampleInputs).get? 7 = some ⟨"Isha", 1035, 1470⟩ ∧
    (blocks sampleInputs).get? 8 = some ⟨"Late Night", 1536, 1845⟩ ∧
    ((1470 : ℚ) ≠ 1536) ∧
    ((blocks sampleInputs).head?.map Block.start = some 0) ∧
    (∀ b ∈ blocks sampleInputs, hits b 1500 = false) := by
  refine ⟨?_, ?_, by norm_num, ?_, ?_⟩
  · norm_num [blocks, maghrib_end, nisf_start, sampleInputs, MAGHRIB_WINDOW_MIN]
  · norm_num [blocks, nisf_start, nisf_end, sihori_end_next, sampleInputs,
      NISF_DURATION_MIN, SIHORI_BEFORE_SUNRISE_MIN]
  · norm_num [blocks]
  · intro b hb
    simp only [blocks, List.mem_cons, List.not_mem_nil, or_false] at hb
    rcases hb with rfl|rfl|rfl|rfl|rfl|rfl|rfl|rfl|rfl <;>
      norm_num [hits, sihori_end, asr_end, zuhr_end, maghrib_end, nisf_start, nisf_end,
        sihori_end_next, sampleInputs, SIHORI_BEFORE_SUNRISE_MIN, ASR_BEFORE_MAGHRIB_MIN,
        MAGHRIB_WINDOW_MIN, NISF_DURATION_MIN]

/-- Claim C2 counterexample: at `now = 440` the active window is Fajr
`[405, 480)`, so the claimed window-relative progress would be
`clamp(100 * 35 / 75) = 46`, but the code returns 5, computed over the
fasting span `[405, 1020)`. -/
theorem claim_C2_counterexample :
    progress_percent sampleInputs 440 = 5 ∧ progressSpec sampleInputs 440 = 46 ∧
      currentBlock sampleInputs 440 = ⟨"Fajr", 405, 480⟩ := by
  refine ⟨?_, ?_, ?_⟩
  · norm_num [progress_percent, fasting, sihori_end, sihori_end_next, sampleInputs,
      SIHORI_BEFORE_SUNRISE_MIN, guarded_pct, clamp_pct]
  · norm_num [progressSpec, currentBlock, blocks, findBlock, hits, lastBlock,
      sihori_end, asr_end, zuhr_end, maghrib_end, nisf_start, nisf_end, sihori_end_next,
      sampleInputs, SIHORI_BEFORE_SUNRISE_MIN, ASR_BEFORE_MAGHRIB_MIN, MAGHRIB_WINDOW_MIN,
      NISF_DURATION_MIN, clamp_pct]
  · norm_num [currentBlock, blocks, findBlock, hits, lastBlock,
      sihori_end, asr_end, zuhr_end, maghrib_end, nisf_start, nisf_end, sihori_end_next,
      sampleInputs, SIHORI_BEFORE_SUNRISE_MIN, ASR_BEFORE_MAGHRIB_MIN, MAGHRIB_WINDOW_MIN,
      NISF_DURATION_MIN]

/-- Claim C2 (amended): the progress value equals
`clamp(100 * (now - S) / (E - S), 0, 100)` (floored to an integer) where
`(S, E)` is the progress span the code selects -- the fasting span
(sihori end, maghrib) while fasting, else the night span (previous maghrib,
sihori end) before maghrib or (maghrib, next sihori end) after -- and the
progress is 0 when the span is degenerate (`E - S <= 0`). -/
theorem claim_C2_amended (i : ScheduleInputs) (now : ℚ) :
    ∃ S E : ℚ, progressSpan i now = (S, E) ∧
      progress_percent i now =
        (if 0 < E - S then clamp_pct (100 * (now - S) / (E - S)) else 0) := by
  cases hf : fasting i now with
  | true =>
    have hc : sihori_end i ≤ now ∧ now < i.maghrib := by
      simpa [fasting] using hf
    refine ⟨sihori_end i, i.maghrib, by simp [progressSpan, hf], ?_⟩
    rw [progress_eq_fasting hc.1 hc.2]
    unfold guarded_pct
    split_ifs with h
    · congr 1; ring
    · rfl
  | false =>
    have hnf : ¬ (sihori_end i ≤ now ∧ now < i.maghrib) := by
      intro hc
      simp [fasting, hc.1, hc.2] at hf
    by_cases hm : now < i.maghrib
    · have hs : now < sihori_end i := by
        by_contra hs
        exact hnf ⟨not_lt.mp hs, hm⟩
      refine ⟨i.maghrib_prev, sihori_end i, by simp [progressSpan, hf, hm], ?_⟩
      rw [progress_eq_before hs hm]
      unfold guarded_pct
      split_ifs with h
      · congr 1; ring
      · rfl
    · refine ⟨i.maghrib, sihori_end_next i, by simp [progressSpan, hf, hm], ?_⟩
      rw [progress_eq_night (not_lt.mp hm)]
      unfold guarded_pct
      split_ifs with h
      · congr 1; ring
      · rfl

/-- Claim C4: the eat-state label is "No Eat" exactly when
`sihori_end <= now < maghrib` (the dawn-marker/sunset-marker bracket) and
"Eat" otherwise, and the fasting classification depends only on the
sunrise and maghrib inputs (hence is independent of which named window
contains `now`). -/
theorem claim_C4_eat_state (i : ScheduleInputs) (now : ℚ) :
    (eat_state i now = "No Eat" ↔ sihori_end i ≤ now ∧ now < i.maghrib) ∧
    (eat_state i now = "Eat" ↔ ¬(sihori_end i ≤ now ∧ now < i.maghrib)) ∧
    (∀ j : ScheduleInputs, j.sunrise = i.sunrise → j.maghrib = i.maghrib →
      fasting j now = fasting i now ∧ eat_state j now = eat_state i now) := by
  refine ⟨?_, ?_, ?_⟩
  · unfold eat_state fasting
    by_cases h1 : sihori_end i ≤ now <;> by_cases h2 : now < i.maghrib <;> simp [h1, h2]
  · unfold eat_state fasting
    by_cases h1 : sihori_end i ≤ now <;> by_cases h2 : now < i.maghrib <;> simp [h1, h2]
  · intro j hs hm
    have hf : fasting j now = fasting i now := by
      unfold fasting sihori_end; rw [hs, hm]
    exact ⟨hf, by unfold eat_state; rw [hf]⟩

/-- Witness for claim C4 at the concrete sample day and `now = 440`. -/
theorem claim_C4_witness :
    (eat_state sampleInputs 440 = "No Eat") ∧
    (fasting ⟨480, 0, 1020, 0, 0⟩ 440 = fasting sampleInputs 440) :=
  ⟨(claim_C4_eat_state sampleInputs 440).1.mpr
      (by norm_num [sihori_end, sampleInputs, SIHORI_BEFORE_SUNRISE_MIN]),
   ((claim_C4_eat_state sampleInputs 440).2.2 ⟨480, 0, 1020, 0, 0⟩ rfl rfl).1⟩

/-- Claim C6: the secondary-calendar conversion maps the anchor ordinal to
day 1 of month 9 (Ramadan) of the anchor year 1447, maps anchor minus one
day to day 30 of month 8 (Sha'ban), and in general returns
`dayIndex = 1 + (date - anchor)` with the month decremented and
`day = 30 + dayIndex` when `dayIndex <= 0`. -/
theorem claim_C6_hijri_anchor :
    gregorian_to_hijri_ramadan_anchor RAMADAN_1_ORDINAL = (1, 9, RAMADAN_1_HIJRI_YEAR) ∧
    gregorian_to_hijri_ramadan_anchor (RAMADAN_1_ORDINAL - 1) = (30, 8, RAMADAN_1_HIJRI_YEAR) ∧
    HIJRI_MONTHS.get? (9 - 1) = some "Ramadan" ∧
    HIJRI_MONTHS.get? (8 - 1) = some "Sha\x27ban" ∧
    ∀ d : ℤ, gregorian_to_hijri_ramadan_anchor d =
      (if 1 + (d - RAMADAN_1_ORDINAL) ≤ 0 then
        (31 + (d - RAMADAN_1_ORDINAL), 8, RAMADAN_1_HIJRI_YEAR)
      else (1 + (d - RAMADAN_1_ORDINAL), 9, RAMADAN_1_HIJRI_YEAR)) := by
  refine ⟨?_, ?_, by decide, by decide, ?_⟩
  · norm_num [gregorian_to_hijri_ramadan_anchor, RAMADAN_1_ORDINAL, RAMADAN_1_HIJRI_YEAR]
  · norm_num [gregorian_to_hijri_ramadan_anchor, RAMADAN_1_ORDINAL, RAMADAN_1_HIJRI_YEAR]
  · intro d
    simp only [gregorian_to_hijri_ramadan_anchor]
    split_ifs with h
    · simp only [Prod.mk.injEq, eq_self_iff_true, and_true, true_and]
      ring
    · rfl

/-- Claim C9: the state resolver returns the first block whose half-open
interval contains `now` (`List.find?` returns the first match), and when no
block contains `now` it falls back to the last block of the list; being a
total function it never fails. -/
theorem claim_C9_resolver (i : ScheduleInputs) (now : ℚ) :
    currentBlock i now = ((blocks i).find? (fun b => hits b now)).getD (lastBlock i) ∧
    ((∀ b ∈ blocks i, hits b now = false) → currentBlock i now = lastBlock i) := by
  constructor
  · exact findBlock_eq now (blocks i) (lastBlock i)
  · intro h
    have hn : (blocks i).find? (fun b => hits b now) = none :=
      List.find?_eq_none.mpr (fun b hb => by simp [h b hb])
    rw [currentBlock, findBlock_eq now (blocks i) (lastBlock i), hn]
    rfl

/-- Witness for claim C9: at `now = 2000`, past every block of the sample
day, the resolver returns the last block. -/
theorem claim_C9_witness :
    currentBlock sampleInputs 2000 = lastBlock sampleInputs := by
  refine (claim_C9_resolver sampleInputs 2000).2 ?_
  intro b hb
  simp only [blocks, List.mem_cons, List.not_mem_nil, or_false] at hb
  rcases hb with rfl|rfl|rfl|rfl|rfl|rfl|rfl|rfl|rfl <;>
    norm_num [hits, sihori_end, asr_end, zuhr_end, maghrib_end, nisf_start, nisf_end,
      sihori_end_next, sampleInputs, SIHORI_BEFORE_SUNRISE_MIN, ASR_BEFORE_MAGHRIB_MIN,
      MAGHRIB_WINDOW_MIN, NISF_DURATION_MIN]

/-- Claim C10: for every date ordinal the conversion returns month 8 or 9
and the fixed year 1447, so the month-name lookup `HIJRI_MONTHS[month-1]`
always succeeds; for dates at least 31 days before the anchor the day is
zero or negative, and for dates 30 or more days after it exceeds 30, with
no error in either case. -/
theorem claim_C10_hijri_range (d : ℤ) :
    ((gregorian_to_hijri_ramadan_anchor d).2.1 = 8 ∨
      (gregorian_to_hijri_ramadan_anchor d).2.1 = 9) ∧
    (gregorian_to_hijri_ramadan_anchor d).2.2 = RAMADAN_1_HIJRI_YEAR ∧
    (HIJRI_MONTHS.get? ((gregorian_to_hijri_ramadan_anchor d).2.1 - 1)).isSome = true ∧
    (d ≤ RAMADAN_1_ORDINAL - 31 → (gregorian_to_hijri_ramadan_anchor d).1 ≤ 0) ∧
    (RAMADAN_1_ORDINAL + 30 ≤ d → 30 < (gregorian_to_hijri_ramadan_anchor d).1) := by
  simp only [gregorian_to_hijri_ramadan_anchor]
  split_ifs with h
  · refine ⟨Or.inl rfl, rfl, rfl, ?_, ?_⟩ <;> · intro hd; dsimp only; omega
  · refine ⟨Or.inr rfl, rfl, rfl, ?_, ?_⟩ <;> · intro hd; dsimp only; omega

/-- Witness for claim C10 at the ordinals 31 days before and 30 days after
the anchor. -/
theorem claim_C10_witness :
    ((gregorian_to_hijri_ramadan_anchor (RAMADAN_1_ORDINAL - 31)).1 ≤ 0) ∧
    (30 < (gregorian_to_hijri_ramadan_anchor (RAMADAN_1_ORDINAL + 30)).1) :=
  ⟨(claim_C10_hijri_range (RAMADAN_1_ORDINAL - 31)).2.2.2.1 (le_refl _),
   (claim_C10_hijri_range (RAMADAN_1_ORDINAL + 30)).2.2.2.2 (le_refl _)⟩

/-- Claim C5 (amended): the progress value is always within `[0, 100]`,
and as `now` advances within a single window (any block of the list, under
the sanity orderings of a real day) it is monotonically non-decreasing; it
resets toward 0 only at the fasting-span boundaries (sihori end and
maghrib), not at every window change (see the counterexample). -/
theorem claim_C5_amended :
    (∀ (i : ScheduleInputs) (t : ℚ),
        0 ≤ progress_percent i t ∧ progress_percent i t ≤ 100) ∧
    (∀ (i : ScheduleInputs), WellFormed i → ∀ b ∈ blocks i, ∀ t1 t2 : ℚ,
        hits b t1 = true → hits b t2 = true → t1 ≤ t2 →
        progress_percent i t1 ≤ progress_percent i t2) := by
  constructor
  · intro i t
    unfold progress_percent
    split_ifs <;> exact ⟨guarded_pct_nonneg _ _, guarded_pct_le_100 _ _⟩
  · rintro i ⟨w1, w2, w3, w4, w5, w6⟩ b hb t1 t2 h1 h2 h12
    have e1 : sihori_end i = i.sunrise - 75 := by
      simp [sihori_end, SIHORI_BEFORE_SUNRISE_MIN]
    have e2 : asr_end i = i.maghrib - 105 := by
      simp [asr_end, ASR_BEFORE_MAGHRIB_MIN]
    have e3 : zuhr_end i = i.zawal + (asr_end i - i.zawal) / 2 := rfl
    have e4 : maghrib_end i = i.maghrib + 15 := by
      simp [maghrib_end, MAGHRIB_WINDOW_MIN]
    have e5 : nisf_start i = i.maghrib + (i.sunrise_next - i.maghrib) / 2 := rfl
    have e6 : nisf_end i = nisf_start i + 66 := by
      simp [nisf_end, NISF_DURATION_MIN]
    have e7 : sihori_end_next i = i.sunrise_next - 75 := by
      simp [sihori_end_next, SIHORI_BEFORE_SUNRISE_MIN]
    simp only [blocks, List.mem_cons, List.not_mem_nil, or_false] at hb
    rcases hb with rfl|rfl|rfl|rfl|rfl|rfl|rfl|rfl|rfl
    all_goals
      simp only [hits, Bool.and_eq_true, decide_eq_true_eq] at h1 h2
      obtain ⟨h1a, h1b⟩ := h1
      obtain ⟨h2a, h2b⟩ := h2
      first
      | (rw [@progress_eq_before i t1 (by linarith) (by linarith),
            @progress_eq_before i t2 (by linarith) (by linarith)]
         exact guarded_pct_mono (by linarith))
      | (rw [@progress_eq_fasting i t1 (by linarith) (by linarith),
            @progress_eq_fasting i t2 (by linarith) (by linarith)]
         exact guarded_pct_mono (by linarith))
      | (rw [@progress_eq_night i t1 (by linarith),
            @progress_eq_night i t2 (by linarith)]
         exact guarded_pct_mono (by linarith))

/-- Witness for claim C5 (amended) on the sample day inside the Fajr
window `[405, 480)` between `now = 440` and `now = 450`. -/
theorem claim_C5_witness :
    (0 ≤ progress_percent sampleInputs 440 ∧ progress_percent sampleInputs 440 ≤ 100) ∧
    progress_percent sampleInputs 440 ≤ progress_percent sampleInputs 450 := by
  constructor
  · exact claim_C5_amended.1 sampleInputs 440
  · refine claim_C5_amended.2 sampleInputs ?_ ⟨"Fajr", 405, 480⟩ ?_ 440 450 ?_ ?_ (by norm_num)
    · refine ⟨?_, ?_, ?_, ?_, ?_, ?_⟩ <;>
        norm_num [sihori_end, asr_end, sihori_end_next, sampleInputs,
          SIHORI_BEFORE_SUNRISE_MIN, ASR_BEFORE_MAGHRIB_MIN]
    · norm_num [blocks, sihori_end, sampleInputs, SIHORI_BEFORE_SUNRISE_MIN]
    · norm_num [hits]
    · norm_num [hits]

/-- Claim C5 counterexample: at `now = 480` the active window changes
(from Fajr to Midday) yet progress does not reset toward 0 -- it rises
from 10 to 12, because the code's progress tracks the fasting span, not
the active window. -/
theorem claim_C5_counterexample :
    currentBlock sampleInputs 470 ≠ currentBlock sampleInputs 480 ∧
    progress_percent sampleInputs 470 = 10 ∧
    progress_percent sampleInputs 480 = 12 := by
  refine ⟨?_, ?_, ?_⟩
  · norm_num [currentBlock, blocks, findBlock, hits, lastBlock,
      sihori_end, asr_end, zuhr_end, maghrib_end, nisf_start, nisf_end, sihori_end_next,
      sampleInputs, SIHORI_BEFORE_SUNRISE_MIN, ASR_BEFORE_MAGHRIB_MIN, MAGHRIB_WINDOW_MIN,
      NISF_DURATION_MIN]
  · norm_num [progress_percent, fasting, sihori_end, sihori_end_next, sampleInputs,
      SIHORI_BEFORE_SUNRISE_MIN, guarded_pct, clamp_pct]
  · norm_num [progress_percent, fasting, sihori_end, sihori_end_next, sampleInputs,
      SIHORI_BEFORE_SUNRISE_MIN, guarded_pct, clamp_pct]

/-- Claim C3: for every latitude, declination and target altitude the hour
angle lies in `[0, 180]` degrees; when the raw cosine ratio exceeds 1 the
result saturates to exactly 0 degrees, and when it falls below -1 it
saturates to exactly 180 degrees; the function is total, so no error is
raised. -/
theorem claim_C3_hour_angle (lat decl alt : ℝ) :
    (0 ≤ hour_angle lat decl alt ∧ hour_angle lat decl alt ≤ 180) ∧
    (1 < cosH lat decl alt → hour_angle lat decl alt = 0) ∧
    (cosH lat decl alt < -1 → hour_angle lat decl alt = 180) := by
  refine ⟨⟨?_, ?_⟩, ?_, ?_⟩
  · unfold hour_angle degrees
    have h1 := Real.arccos_nonneg (max (-1) (min 1 (cosH lat decl alt)))
    exact div_nonneg (by nlinarith) Real.pi_pos.le
  · unfold hour_angle degrees
    have h2 := Real.arccos_le_pi (max (-1) (min 1 (cosH lat decl alt)))
    rw [div_le_iff₀ Real.pi_pos]
    nlinarith [Real.pi_pos]
  · intro h
    unfold hour_angle
    rw [min_eq_left h.le, max_eq_right (by norm_num : (-1 : ℝ) ≤ 1), Real.arccos_one]
    unfold degrees
    simp
  · intro h
    unfold hour_angle
    rw [min_eq_right (le_of_lt (lt_trans h (by norm_num))), max_eq_left h.le,
      Real.arccos_neg_one]
    unfold degrees
    rw [mul_comm, mul_div_assoc, div_self Real.pi_ne_zero, mul_one]

/-- Witness for claim C3 at latitude pi/3, declination pi/4: altitude 90
degrees drives the raw ratio above 1 (result exactly 0), altitude -90
drives it below -1 (result exactly 180). -/
theorem claim_C3_witness :
    (1 < cosH (Real.pi / 3) (Real.pi / 4) 90 ∧
      hour_angle (Real.pi / 3) (Real.pi / 4) 90 = 0) ∧
    (cosH (Real.pi / 3) (Real.pi / 4) (-90) < -1 ∧
      hour_angle (Real.pi / 3) (Real.pi / 4) (-90) = 180) := by
  have hd90 : deg2rad 90 = Real.pi / 2 := by unfold deg2rad; ring
  have hd90n : deg2rad (-90) = -(Real.pi / 2) := by unfold deg2rad; ring
  have h3lt : Real.sqrt 3 < 1.74 := (Real.sqrt_lt' (by norm_num)).mpr (by norm_num)
  have h2lt : Real.sqrt 2 < 1.42 := (Real.sqrt_lt' (by norm_num)).mpr (by norm_num)
  have hprod : Real.sqrt 3 * Real.sqrt 2 < 2.4708 := by
    nlinarith [h3lt, h2lt, Real.sqrt_nonneg 3, Real.sqrt_nonneg 2]
  have hr1 : 1 < cosH (Real.pi / 3) (Real.pi / 4) 90 := by
    unfold cosH
    rw [hd90, Real.sin_pi_div_two, Real.sin_pi_div_three, Real.sin_pi_div_four,
      Real.cos_pi_div_three, Real.cos_pi_div_four]
    rw [one_lt_div (by positivity)]
    nlinarith [hprod, h2lt, Real.sqrt_nonneg 2]
  have hr2 : cosH (Real.pi / 3) (Real.pi / 4) (-90) < -1 := by
    unfold cosH
    rw [hd90n, Real.sin_neg, Real.sin_pi_div_two, Real.sin_pi_div_three,
      Real.sin_pi_div_four, Real.cos_pi_div_three, Real.cos_pi_div_four]
    rw [div_lt_iff₀ (by positivity)]
    nlinarith [mul_nonneg (Real.sqrt_nonneg 3) (Real.sqrt_nonneg 2), h2lt,
      Real.sqrt_nonneg 2]
  exact ⟨⟨hr1, (claim_C3_hour_angle _ _ _).2.1 hr1⟩,
    ⟨hr2, (claim_C3_hour_angle _ _ _).2.2 hr2⟩⟩

/-- Claim C7: solar noon in minutes from local midnight equals
`720 - 4 * longitude - equationOfTimeMinutes + utcOffsetMinutes`, where
the zone offset is the one the zone reports at that date's local noon
(wall minute 720): any two zone-offset functions agreeing at noon -- even
if they differ at midnight -- yield the same solar noon. -/
theorem claim_C7_solar_noon (tz tz2 : ℤ → ℝ → ℝ) (dateOrd : ℤ) (doy : ℕ) :
    solar_noon_min tz dateOrd doy =
      720 - 4 * LON - equation_of_time (gammaOf doy) + tz dateOrd 720 ∧
    (tz dateOrd 720 = tz2 dateOrd 720 →
      solar_noon_min tz dateOrd doy = solar_noon_min tz2 dateOrd doy) := by
  refine ⟨rfl, fun h => ?_⟩
  unfold solar_noon_min
  rw [h]

/-- Witness for claim C7: a constant +60 offset and an offset function
that differs at midnight but equals +60 at noon give the same solar
noon. -/
theorem claim_C7_witness :
    solar_noon_min (fun _ _ => (60 : ℝ)) 739617 1 =
      solar_noon_min (fun _ m => 60 * (m / 720)) 739617 1 :=
  (claim_C7_solar_noon (fun _ _ => (60 : ℝ)) (fun _ m => 60 * (m / 720)) 739617 1).2
    (by norm_num)

theorem sin_poly_bounds (x : ℝ) (h1 : 0 ≤ x) (h2 : x ≤ 1) :
    x - x ^ 3 / 6 - x ^ 4 * (5 / 96) ≤ Real.sin x ∧
      Real.sin x ≤ x - x ^ 3 / 6 + x ^ 4 * (5 / 96) := by
  have hb := Real.sin_bound (x := x) (by rw [abs_of_nonneg h1]; exact h2)
  rw [abs_of_nonneg h1] at hb
  have hb1 := abs_le.mp hb
  constructor <;> linarith [hb1.1, hb1.2]

theorem cos_poly_bounds (x : ℝ) (h1 : 0 ≤ x) (h2 : x ≤ 1) :
    1 - x ^ 2 / 2 - x ^ 4 * (5 / 96) ≤ Real.cos x ∧
      Real.cos x ≤ 1 - x ^ 2 / 2 + x ^ 4 * (5 / 96) := by
  have hb := Real.cos_bound (x := x) (by rw [abs_of_nonneg h1]; exact h2)
  rw [abs_of_nonneg h1] at hb
  have hb1 := abs_le.mp hb
  constructor <;> linarith [hb1.1, hb1.2]

theorem sin_interval (x a b : ℝ) (ha : a ≤ x) (hb : x ≤ b) (h0 : 0 ≤ a) (h1 : b ≤ 1) :
    a - b ^ 3 / 6 - b ^ 4 * (5 / 96) ≤ Real.sin x ∧
      Real.sin x ≤ b - a ^ 3 / 6 + b ^ 4 * (5 / 96) := by
  have h0x : 0 ≤ x := le_trans h0 ha
  have hx1 : x ≤ 1 := le_trans hb h1
  obtain ⟨l, u⟩ := sin_poly_bounds x h0x hx1
  have hx3 : x ^ 3 ≤ b ^ 3 := pow_le_pow_left₀ h0x hb 3
  have ha3 : a ^ 3 ≤ x ^ 3 := pow_le_pow_left₀ h0 ha 3
  have hx4 : x ^ 4 ≤ b ^ 4 := pow_le_pow_left₀ h0x hb 4
  have h4n : 0 ≤ x ^ 4 := by positivity
  constructor <;> linarith

theorem cos_interval (x a b : ℝ) (ha : a ≤ x) (hb : x ≤ b) (h0 : 0 ≤ a) (h1 : b ≤ 1) :
    1 - b ^ 2 / 2 - b ^ 4 * (5 / 96) ≤ Real.cos x ∧
      Real.cos x ≤ 1 - a ^ 2 / 2 + b ^ 4 * (5 / 96) := by
  have h0x : 0 ≤ x := le_trans h0 ha
  have hx1 : x ≤ 1 := le_trans hb h1
  obtain ⟨l, u⟩ := cos_poly_bounds x h0x hx1
  have hx2 : x ^ 2 ≤ b ^ 2 := pow_le_pow_left₀ h0x hb 2
  have ha2 : a ^ 2 ≤ x ^ 2 := pow_le_pow_left₀ h0 ha 2
  have hx4 : x ^ 4 ≤ b ^ 4 := pow_le_pow_left₀ h0x hb 4
  have h4n : 0 ≤ x ^ 4 := by positivity
  constructor <;> linarith

theorem arccos_lt_of_cos_lt {t r : ℝ} (h0 : 0 ≤ t) (hp : t ≤ Real.pi) (hr1 : r ≤ 1)
    (h : Real.cos t < r) : Real.arccos r < t := by
  have h1 : Real.arccos r < Real.arccos (Real.cos t) :=
    Real.strictAntiOn_arccos ⟨Real.neg_one_le_cos t, Real.cos_le_one t⟩
      ⟨le_trans (Real.neg_one_le_cos t) h.le, hr1⟩ h
  rwa [Real.arccos_cos h0 hp] at h1

theorem lt_arccos_of_lt_cos {t r : ℝ} (h0 : 0 ≤ t) (hp : t ≤ Real.pi) (hr : -1 ≤ r)
    (h : r < Real.cos t) : t < Real.arccos r := by
  have h1 : Real.arccos (Real.cos t) < Real.arccos r :=
    Real.strictAntiOn_arccos ⟨hr, le_trans h.le (Real.cos_le_one t)⟩
      ⟨Real.neg_one_le_cos t, Real.cos_le_one t⟩ h
  rwa [Real.arccos_cos h0 hp] at h1

theorem fmod1440_eq {x : ℝ} (h1 : 0 ≤ x) (h2 : x < 1440) : fmod1440 x = x := by
  unfold fmod1440
  have hf : ⌊x / 1440⌋ = 0 := by
    rw [Int.floor_eq_zero_iff]
    constructor
    · positivity
    · rw [div_lt_one (by norm_num)]; exact h2
  rw [hf]
  push_cast
  ring

theorem deg2rad_degrees (x : ℝ) : deg2rad (degrees x) = x := by
  unfold deg2rad degrees
  field_simp

theorem gammaOf_one : gammaOf 1 = 0 := by
  unfold gammaOf; norm_num

theorem decl_doy1 : solar_declination (gammaOf 1) = -0.402449 := by
  rw [gammaOf_one]
  unfold solar_declination
  simp only [mul_zero, Real.cos_zero, Real.sin_zero]
  norm_num

theorem eot_doy1 : equation_of_time (gammaOf 1) = -2.90416896 := by
  rw [gammaOf_one]
  unfold equation_of_time
  simp only [mul_zero, Real.cos_zero, Real.sin_zero]
  norm_num

theorem noon_doy1 : solar_noon_min berlinWinterTZ 739617 1 = 748.17576896 := by
  unfold solar_noon_min berlinWinterTZ LON
  rw [eot_doy1]
  norm_num

theorem latRad_bounds : 0.8746 ≤ deg2rad LAT ∧ deg2rad LAT ≤ 0.8746003 := by
  unfold deg2rad LAT
  constructor
  · linarith [Real.pi_gt_d6]
  · linarith [Real.pi_lt_d6]

theorem sinHalfL_bounds :
    0.42145 ≤ Real.sin (deg2rad LAT / 2) ∧ Real.sin (deg2rad LAT / 2) ≤ 0.42527 := by
  obtain ⟨hl, hu⟩ := latRad_bounds
  obtain ⟨l, u⟩ := sin_interval (deg2rad LAT / 2) 0.4373 0.43730015
    (by linarith) (by linarith) (by norm_num) (by norm_num)
  have e1 : (0.42145 : ℝ) ≤ 0.4373 - 0.43730015 ^ 3 / 6 - 0.43730015 ^ 4 * (5 / 96) := by
    norm_num
  have e2 : (0.43730015 : ℝ) - 0.4373 ^ 3 / 6 + 0.43730015 ^ 4 * (5 / 96) ≤ 0.42527 := by
    norm_num
  exact ⟨by linarith, by linarith⟩

theorem sinQuartL_bounds :
    0.21678 ≤ Real.sin (deg2rad LAT / 4) ∧ Real.sin (deg2rad LAT / 4) ≤ 0.21703 := by
  obtain ⟨hl, hu⟩ := latRad_bounds
  obtain ⟨l, u⟩ := sin_interval (deg2rad LAT / 4) 0.21865 0.2186501
    (by linarith) (by linarith) (by norm_num) (by norm_num)
  have e1 : (0.21678 : ℝ) ≤ 0.21865 - 0.2186501 ^ 3 / 6 - 0.2186501 ^ 4 * (5 / 96) := by
    norm_num
  have e2 : (0.2186501 : ℝ) - 0.21865 ^ 3 / 6 + 0.2186501 ^ 4 * (5 / 96) ≤ 0.21703 := by
    norm_num
  exact ⟨by linarith, by linarith⟩

theorem cos_eq_one_sub_two_sin_sq (y : ℝ) :
    Real.cos (2 * y) = 1 - 2 * Real.sin y ^ 2 := by
  have h1 := Real.cos_two_mul' y
  have h2 := Real.sin_sq_add_cos_sq y
  linarith

theorem cosHalfL_bounds :
    0.90579 ≤ Real.cos (deg2rad LAT / 2) ∧ Real.cos (deg2rad LAT / 2) ≤ 0.90602 := by
  obtain ⟨hl, hu⟩ := sinQuartL_bounds
  have e : deg2rad LAT / 2 = 2 * (deg2rad LAT / 4) := by ring
  rw [e, cos_eq_one_sub_two_sin_sq]
  constructor <;> nlinarith [hl, hu]

theorem sinL_bounds :
    0.76349 ≤ Real.sin (deg2rad LAT) ∧ Real.sin (deg2rad LAT) ≤ 0.77061 := by
  obtain ⟨hp1, hp2⟩ := sinHalfL_bounds
  obtain ⟨hq1, hq2⟩ := cosHalfL_bounds
  have e : deg2rad LAT = 2 * (deg2rad LAT / 2) := by ring
  rw [e, Real.sin_two_mul]
  constructor <;> nlinarith [hp1, hp2, hq1, hq2]

theorem cosL_bounds :
    0.63829 ≤ Real.cos (deg2rad LAT) ∧ Real.cos (deg2rad LAT) ≤ 0.64476 := by
  obtain ⟨hp1, hp2⟩ := sinHalfL_bounds
  have e : deg2rad LAT = 2 * (deg2rad LAT / 2) := by ring
  rw [e, cos_eq_one_sub_two_sin_sq]
  constructor <;> nlinarith [hp1, hp2]

theorem sinD_bounds :
    0.39021 ≤ Real.sin 0.402449 ∧ Real.sin 0.402449 ≤ 0.39296 := by
  obtain ⟨l, u⟩ := sin_poly_bounds 0.402449 (by norm_num) (by norm_num)
  have e1 : (0.39021 : ℝ) ≤ 0.402449 - 0.402449 ^ 3 / 6 - 0.402449 ^ 4 * (5 / 96) := by
    norm_num
  have e2 : (0.402449 : ℝ) - 0.402449 ^ 3 / 6 + 0.402449 ^ 4 * (5 / 96) ≤ 0.39296 := by
    norm_num
  exact ⟨by linarith, by linarith⟩

theorem sinDHalf_bounds :
    0.19978 ≤ Real.sin 0.2012245 ∧ Real.sin 0.2012245 ≤ 0.19996 := by
  obtain ⟨l, u⟩ := sin_poly_bounds 0.2012245 (by norm_num) (by norm_num)
  have e1 : (0.19978 : ℝ) ≤ 0.2012245 - 0.2012245 ^ 3 / 6 - 0.2012245 ^ 4 * (5 / 96) := by
    norm_num
  have e2 : (0.2012245 : ℝ) - 0.2012245 ^ 3 / 6 + 0.2012245 ^ 4 * (5 / 96) ≤ 0.19996 := by
    norm_num
  exact ⟨by linarith, by linarith⟩

theorem cosD_bounds :
    0.92003 ≤ Real.cos 0.402449 ∧ Real.cos 0.402449 ≤ 0.92018 := by
  obtain ⟨hl, hu⟩ := sinDHalf_bounds
  have e : (0.402449 : ℝ) = 2 * 0.2012245 := by norm_num
  rw [e, cos_eq_one_sub_two_sin_sq]
  constructor <;> nlinarith [hl, hu]

theorem altRad_bounds : -0.0145386 ≤ deg2rad ALT ∧ deg2rad ALT < 0 := by
  unfold deg2rad ALT
  constructor
  · linarith [Real.pi_lt_d6]
  · nlinarith [Real.pi_pos]

theorem sinAlt_bounds : -0.0145386 ≤ Real.sin (deg2rad ALT) ∧ Real.sin (deg2rad ALT) ≤ 0 := by
  obtain ⟨hb1, hb2⟩ := altRad_bounds
  constructor
  · have hy : 0 < -(deg2rad ALT) := by linarith
    have hs := Real.sin_lt hy
    rw [Real.sin_neg] at hs
    linarith
  · exact Real.sin_nonpos_of_nonnpos_of_neg_pi_le hb2.le (by linarith [Real.pi_gt_d6])

theorem sinNegD : Real.sin (-0.402449 : ℝ) = -Real.sin 0.402449 := by
  rw [show (-0.402449 : ℝ) = -(0.402449 : ℝ) by norm_num, Real.sin_neg]

theorem cosNegD : Real.cos (-0.402449 : ℝ) = Real.cos 0.402449 := by
  rw [show (-0.402449 : ℝ) = -(0.402449 : ℝ) by norm_num, Real.cos_neg]

theorem prodP_bounds :
    0.29791 ≤ Real.sin (deg2rad LAT) * Real.sin 0.402449 ∧
      Real.sin (deg2rad LAT) * Real.sin 0.402449 ≤ 0.30282 := by
  obtain ⟨hs1, hs2⟩ := sinL_bounds
  obtain ⟨hd1, hd2⟩ := sinD_bounds
  constructor <;> nlinarith

theorem prodD_bounds :
    0.58724 ≤ Real.cos (deg2rad LAT) * Real.cos 0.402449 ∧
      Real.cos (deg2rad LAT) * Real.cos 0.402449 ≤ 0.59330 := by
  obtain ⟨hc1, hc2⟩ := cosL_bounds
  obtain ⟨he1, he2⟩ := cosD_bounds
  constructor <;> nlinarith

theorem r0_bounds :
    0.47761 ≤ cosH (deg2rad LAT) (solar_declination (gammaOf 1)) ALT ∧
      cosH (deg2rad LAT) (solar_declination (gammaOf 1)) ALT ≤ 0.5157 := by
  rw [decl_doy1]
  unfold cosH
  rw [sinNegD, cosNegD]
  obtain ⟨ha1, ha2⟩ := sinAlt_bounds
  obtain ⟨hP1, hP2⟩ := prodP_bounds
  obtain ⟨hD1, hD2⟩ := prodD_bounds
  have hDpos : 0 < Real.cos (deg2rad LAT) * Real.cos 0.402449 := by linarith
  constructor
  · rw [le_div_iff₀ hDpos]
    nlinarith
  · rw [div_le_iff₀ hDpos]
    nlinarith

theorem H0_doy1_bounds : 0 ≤ H0 1 ∧ H0 1 < 66.25 := by
  obtain ⟨hr1, hr2⟩ := r0_bounds
  unfold H0 hour_angle
  rw [min_eq_right (by linarith), max_eq_right (by linarith)]
  constructor
  · unfold degrees
    exact div_nonneg (mul_nonneg (Real.arccos_nonneg _) (by norm_num)) Real.pi_pos.le
  · have hcos : Real.cos (53 * Real.pi / 144) <
        cosH (deg2rad LAT) (solar_declination (gammaOf 1)) ALT := by
      rw [show 53 * Real.pi / 144 = Real.pi / 2 - 19 * Real.pi / 144 by ring,
        Real.cos_pi_div_two_sub]
      have h19 : (0 : ℝ) < 19 * Real.pi / 144 := by positivity
      have hlt := Real.sin_lt h19
      have hb : 19 * Real.pi / 144 ≤ 0.41452 := by linarith [Real.pi_lt_d6]
      linarith
    have harc := arccos_lt_of_cos_lt (by positivity)
      (by nlinarith [Real.pi_pos]) (by linarith) hcos
    unfold degrees
    rw [div_lt_iff₀ Real.pi_pos]
    nlinarith [Real.pi_pos]

/-- On 2026-01-01 no wraparound occurs, so the code's zuhr-end marker sits
`2 * H0 - 52.5` minutes after solar noon (748.17576896 minutes after
midnight). -/
theorem zuhr_end_doy1 :
    zuhr_end_min berlinWinterTZ 739617 1 = 748.17576896 + 2 * H0 1 - 52.5 := by
  obtain ⟨h0a, h0b⟩ := H0_doy1_bounds
  unfold zuhr_end_min asr_end_min maghribWall zawalWall sunset_min
  rw [noon_doy1]
  rw [fmod1440_eq (by norm_num) (by norm_num),
    fmod1440_eq (by linarith) (by linarith)]
  ring

theorem complement_bounds :
    0.2937467 ≤ Real.pi / 2 - (deg2rad LAT + 0.402449) ∧
      Real.pi / 2 - (deg2rad LAT + 0.402449) ≤ 0.2937475 := by
  obtain ⟨hl, hu⟩ := latRad_bounds
  constructor
  · linarith [Real.pi_gt_d6]
  · linarith [Real.pi_lt_d6]

theorem cosu_bounds :
    0.95646 ≤ Real.cos (Real.pi / 2 - (deg2rad LAT + 0.402449)) ∧
      Real.cos (Real.pi / 2 - (deg2rad LAT + 0.402449)) ≤ 0.95725 := by
  obtain ⟨hl, hu⟩ := complement_bounds
  obtain ⟨l, u⟩ := cos_interval (Real.pi / 2 - (deg2rad LAT + 0.402449))
    0.2937467 0.2937475 hl hu (by norm_num) (by norm_num)
  have e1 : (0.95646 : ℝ) ≤ 1 - 0.2937475 ^ 2 / 2 - 0.2937475 ^ 4 * (5 / 96) := by norm_num
  have e2 : (1 : ℝ) - 0.2937467 ^ 2 / 2 + 0.2937475 ^ 4 * (5 / 96) ≤ 0.95725 := by norm_num
  exact ⟨by linarith, by linarith⟩

theorem sinu_bounds :
    0.28913 ≤ Real.sin (Real.pi / 2 - (deg2rad LAT + 0.402449)) ∧
      Real.sin (Real.pi / 2 - (deg2rad LAT + 0.402449)) ≤ 0.28992 := by
  obtain ⟨hl, hu⟩ := complement_bounds
  obtain ⟨l, u⟩ := sin_interval (Real.pi / 2 - (deg2rad LAT + 0.402449))
    0.2937467 0.2937475 hl hu (by norm_num) (by norm_num)
  have e1 : (0.28913 : ℝ) ≤ 0.2937467 - 0.2937475 ^ 3 / 6 - 0.2937475 ^ 4 * (5 / 96) := by
    norm_num
  have e2 : (0.2937475 : ℝ) - 0.2937467 ^ 3 / 6 + 0.2937475 ^ 4 * (5 / 96) ≤ 0.28992 := by
    norm_num
  exact ⟨by linarith, by linarith⟩

theorem tanDelta_lower : 3.2990 ≤ Real.tan (deg2rad LAT + 0.402449) := by
  obtain ⟨hc1, hc2⟩ := cosu_bounds
  obtain ⟨hs1, hs2⟩ := sinu_bounds
  have hsd : Real.sin (deg2rad LAT + 0.402449) =
      Real.cos (Real.pi / 2 - (deg2rad LAT + 0.402449)) := by
    rw [Real.cos_pi_div_two_sub]
  have hcd : Real.cos (deg2rad LAT + 0.402449) =
      Real.sin (Real.pi / 2 - (deg2rad LAT + 0.402449)) := by
    rw [Real.sin_pi_div_two_sub]
  rw [Real.tan_eq_sin_div_cos, hsd, hcd]
  rw [le_div_iff₀ (by linarith)]
  nlinarith

theorem tanDelta_pos : 0 < Real.tan (deg2rad LAT + 0.402449) := by
  linarith [tanDelta_lower]

theorem cosPiDivNine_lower : 0.9383 ≤ Real.cos (Real.pi / 9) := by
  have h1 : (0.3490657 : ℝ) ≤ Real.pi / 9 := by linarith [Real.pi_gt_d6]
  have h2 : Real.pi / 9 ≤ 0.3490659 := by linarith [Real.pi_lt_d6]
  obtain ⟨l, _⟩ := cos_interval (Real.pi / 9) 0.3490657 0.3490659 h1 h2
    (by norm_num) (by norm_num)
  have e1 : (0.9383 : ℝ) ≤ 1 - 0.3490659 ^ 2 / 2 - 0.3490659 ^ 4 * (5 / 96) := by norm_num
  linarith

/-- On day-of-year 1 the shadow-based hour angle exceeds 20 degrees for
every shadow factor `f >= 1` (the cosine ratio stays below
`cos(20 degrees)`). -/
theorem shadow_hour_angle_gt (f : ℝ) (hf : 1 ≤ f) :
    20 < hour_angle (deg2rad LAT) (solar_declination (gammaOf 1))
      (shadowAltDeg f (deg2rad LAT) (solar_declination (gammaOf 1))) := by
  rw [decl_doy1]
  unfold hour_angle cosH shadowAltDeg noonShadowLen
  rw [deg2rad_degrees]
  have habs : |deg2rad LAT - (-0.402449 : ℝ)| = deg2rad LAT + 0.402449 := by
    have e : deg2rad LAT - (-0.402449 : ℝ) = deg2rad LAT + 0.402449 := by ring
    rw [e, abs_of_pos (by linarith [latRad_bounds.1])]
  rw [habs, sinNegD, cosNegD]
  have hT := tanDelta_lower
  have hfT : (4.2990 : ℝ) ≤ f + Real.tan (deg2rad LAT + 0.402449) := by linarith
  have hfTpos : (0 : ℝ) < f + Real.tan (deg2rad LAT + 0.402449) := by linarith
  have ht0 : 0 < 1 / (f + Real.tan (deg2rad LAT + 0.402449)) := by positivity
  have ht1 : 1 / (f + Real.tan (deg2rad LAT + 0.402449)) ≤ 0.23262 := by
    have h1 : 1 / (f + Real.tan (deg2rad LAT + 0.402449)) ≤ 1 / 4.2990 :=
      one_div_le_one_div_of_le (by norm_num) hfT
    have h2 : (1 : ℝ) / 4.2990 ≤ 0.23262 := by norm_num
    linarith
  set t := 1 / (f + Real.tan (deg2rad LAT + 0.402449)) with hts
  have hsa : Real.sin (Real.arctan t) = t / Real.sqrt (1 + t ^ 2) := Real.sin_arctan t
  have hsqrt1 : (1 : ℝ) ≤ Real.sqrt (1 + t ^ 2) := by
    have h := Real.sqrt_le_sqrt (show (1 : ℝ) ≤ 1 + t ^ 2 by nlinarith [sq_nonneg t])
    rwa [Real.sqrt_one] at h
  have hsal1 : 0 ≤ Real.sin (Real.arctan t) := by
    rw [hsa]
    positivity
  have hsal2 : Real.sin (Real.arctan t) ≤ 0.23262 := by
    rw [hsa]
    calc t / Real.sqrt (1 + t ^ 2) ≤ t := div_le_self ht0.le hsqrt1
      _ ≤ 0.23262 := ht1
  obtain ⟨hP1, hP2⟩ := prodP_bounds
  obtain ⟨hD1, hD2⟩ := prodD_bounds
  have hDpos : 0 < Real.cos (deg2rad LAT) * Real.cos 0.402449 := by linarith
  have hrf1 : 0 ≤ (Real.sin (Real.arctan t) - Real.sin (deg2rad LAT) * -Real.sin 0.402449) /
      (Real.cos (deg2rad LAT) * Real.cos 0.402449) := by
    rw [le_div_iff₀ hDpos]
    nlinarith
  have hrf2 : (Real.sin (Real.arctan t) - Real.sin (deg2rad LAT) * -Real.sin 0.402449) /
      (Real.cos (deg2rad LAT) * Real.cos 0.402449) ≤ 0.9118 := by
    rw [div_le_iff₀ hDpos]
    nlinarith
  rw [min_eq_right (by linarith), max_eq_right (by linarith)]
  have hγ : (Real.sin (Real.arctan t) - Real.sin (deg2rad LAT) * -Real.sin 0.402449) /
      (Real.cos (deg2rad LAT) * Real.cos 0.402449) < Real.cos (Real.pi / 9) := by
    linarith [cosPiDivNine_lower]
  have harc := lt_arccos_of_lt_cos (by positivity)
    (by nlinarith [Real.pi_pos]) (by linarith) hγ
  unfold degrees
  rw [lt_div_iff₀ Real.pi_pos]
  nlinarith [Real.pi_pos]

/-- Claim C8 counterexample: on 2026-01-01 (day-of-year 1, Berlin winter
offset +60) the code's zuhr-end marker -- `zawal + (asr_end - zawal) / 2`
with `asr_end = maghrib - 105` minutes -- differs from the spec's
shadow-based marker time for every shadow factor `f >= 1`: the code's
offset from solar noon is `2 * H0 - 52.5 < 80` minutes (since
`H0 < 66.25` degrees that day), while every shadow-based marker falls
more than `4 * 20 = 80` minutes after solar noon. -/
theorem claim_C8_counterexample :
    ¬ ∃ f : ℝ, 1 ≤ f ∧
      zuhr_end_min berlinWinterTZ 739617 1 = shadowMarkerMin berlinWinterTZ 739617 1 f := by
  rintro ⟨f, hf, heq⟩
  have hz := zuhr_end_doy1
  have hH := H0_doy1_bounds
  have hs := shadow_hour_angle_gt f hf
  rw [hz] at heq
  unfold shadowMarkerMin at heq
  rw [noon_doy1] at heq
  linarith [hH.2]

/-- Claim C8 (amended): the afternoon markers are fixed offsets from real
events -- asr end is maghrib minus 105 minutes, and zuhr end is the
midpoint of zawal and asr end; no shadow-length quantity enters the
computation. -/
theorem claim_C8_amended (tz : ℤ → ℝ → ℝ) (dateOrd : ℤ) (doy : ℕ) :
    asr_end_min tz dateOrd doy =
      fmod1440 (solar_noon_min tz dateOrd doy + H0 doy * 4) - 105 ∧
    zuhr_end_min tz dateOrd doy =
      fmod1440 (solar_noon_min tz dateOrd doy) +
        (fmod1440 (solar_noon_min tz dateOrd doy + H0 doy * 4) - 105 -
          fmod1440 (solar_noon_min tz dateOrd doy)) / 2 :=
  ⟨rfl, rfl⟩

end SalahTime
